import Mathlib

/-!
Shallow embedding of `src/base/src/schema.rs` (the `Schema` struct and its
methods `load`, `download`, `get`, `load_or_download`, `validate`,
`validate_file`).

Modelling decisions, all driven by the Rust source:

* The async methods perform I/O against the cache file, the network and
  external libraries (serde_json, valico).  We pass the environment
  explicitly: a `World` records the outcome every external call would have
  (cache-path resolution, cache-file content, network response, file
  creation and writing), and each operation returns the possibly updated
  `World` together with the possibly updated `Schema` state and a trace of
  the I/O effects it attempted.
* `anyhow::Error` with `.context(...)` forms a chain of messages around a
  root cause; `Err` mirrors that: leaves `Err.lib`/`Err.msg` and the
  wrapper `Err.ctx`.  `anyhow!("...")` is `Err.msg "..."`.
* serde_json parsing, valico schema compilation and valico validation are
  external collaborators (their code is not part of this repository); they
  are parameters in `Libs`.  Per valico's vocabulary (and the spec's data
  model) a validation outcome is valid exactly when its error list is
  empty, so `is_valid()` is embedded as `List.isEmpty` of the produced
  error records.
* `compile_and_return(..).unwrap()` in `validate` panics when compilation
  fails; a panic does not return, so `validate` produces an `Outcome`
  with a dedicated `Outcome.panic` point besides `ok` and `err`.
* `cache::get_path` / `cache::create_file` are from the repository's
  `cache` module, which is not under `src/`.  Modelled from the spec:
  CacheLocation resolves the logical key "schema.json" to one path and can
  create a writable file there; `World.path` is the resolution outcome,
  `World.file` the content stored at that path (`none` = absent),
  `World.create` / `World.write` the outcomes of creating and writing.
* `println!` output and the exact byte payloads of library error objects
  are irrelevant to the claims; library error leaves carry a short tag
  string instead.
-/

/-- An `anyhow`-style error: a root cause wrapped in zero or more context
messages.  `lib` stands for an error object coming from an external library
or the OS, `msg` for `anyhow!("...")`, `ctx` for `.context("...")`. -/
inductive Err : Type where
  | lib : String → Err
  | msg : String → Err
  | ctx : String → Err → Err
deriving DecidableEq, Repr

/-- All messages visible in an error chain, outermost context first. -/
def Err.msgs : Err → List String
  | .lib s => [s]
  | .msg s => [s]
  | .ctx s e => s :: e.msgs

/-- One attempted external access: cache-path resolution, reading a file,
an HTTP GET, creating the cache file, writing to it. -/
inductive Eff : Type where
  | getPath : Eff
  | openRead : Eff
  | netGet : Eff
  | createFile : Eff
  | writeFile : Eff
deriving DecidableEq, Repr

/-- The external environment of one run: what each external call would
return.  `file` is the content at the resolved cache path (`none` =
absent; `path.exists()` is `file.isSome`).  `net` is the combined outcome
of `reqwest::get(URL)` and `.text()`.  `create` and `write` are the
outcomes of `cache::create_file` and `write_all`. -/
structure World : Type where
  path : Except Err Unit
  file : Option String
  net : Except Err String
  create : Except Err Unit
  write : Except Err Unit
deriving Repr

/-- The external libraries: `parse` is `serde_json::from_str` (`V` the
type of serde `Value`s), `compile` is valico's
`scope.compile_and_return(schema, false)` (`C` the compiled schema),
`check` runs the compiled schema on a document and returns the valico
error records (`E`); the result `is_valid()` exactly when that list is
empty. -/
structure Libs (V E C : Type) : Type where
  parse : String → Option V
  compile : V → Option C
  check : C → V → List E

/-- `pub struct Schema { val: Option<Value> }`. -/
structure Schema (V : Type) : Type where
  val : Option V
deriving Repr

/-- Result of `Schema::validate` / `Schema::validate_file`: `Ok(..)`,
`Err(..)`, or a panic (the `unwrap` aborting instead of returning). -/
inductive Outcome (α : Type) : Type where
  | ok : α → Outcome α
  | err : Err → Outcome α
  | panic : Outcome α
deriving DecidableEq, Repr

/-- `Schema::new()`: cached value empty. -/
def Schema.new {V : Type} : Schema V := { val := none }

/-- `Schema::load` (schema.rs lines 32-45).  Returns the cached value if
present; otherwise resolves the cache path, opens and reads the file,
parses it, caches and returns the parsed value.  `read_to_string` on a
`String` content cannot fail and is part of the `openRead` effect. -/
def Schema.load {V E C : Type} (ext : Libs V E C) (w : World) (s : Schema V) :
    Except Err V × Schema V × List Eff :=
  match s.val with
  | some schema => (Except.ok schema, s, [])
  | none =>
    match w.path with
    | Except.error e => (Except.error e, s, [Eff.getPath])
    | Except.ok _ =>
      match w.file with
      | none =>
        (Except.error (Err.ctx "Could not open schema.json" (Err.lib "open")), s,
          [Eff.getPath, Eff.openRead])
      | some buffer =>
        match ext.parse buffer with
        | none =>
          (Except.error (Err.ctx "Failed to parse schema.min.json." (Err.lib "parse")), s,
            [Eff.getPath, Eff.openRead])
        | some schema => (Except.ok schema, { val := some schema }, [Eff.getPath, Eff.openRead])

/-- `Schema::download` (schema.rs lines 49-66).  Resolves the cache path;
if no file exists there, performs the HTTP GET, creates the cache file and
writes the fetched text to it; if the file exists, fails without touching
the network.  A successful `create_file` followed by a failed `write_all`
leaves a created but empty file. -/
def Schema.download {V : Type} (w : World) (s : Schema V) :
    Except Err Unit × World × Schema V × List Eff :=
  match w.path with
  | Except.error e =>
    (Except.error (Err.ctx "Could not get path to schema." e), w, s, [Eff.getPath])
  | Except.ok _ =>
    if w.file.isNone then
      match w.net with
      | Except.error e =>
        (Except.error (Err.ctx "Could not get schema.min.json from GitHub source." e), w, s,
          [Eff.getPath, Eff.netGet])
      | Except.ok result =>
        match w.create with
        | Except.error e =>
          (Except.error (Err.ctx "Could not create schema.min.json." e), w, s,
            [Eff.getPath, Eff.netGet, Eff.createFile])
        | Except.ok _ =>
          match w.write with
          | Except.error e =>
            (Except.error (Err.ctx "Could not write schema.min.json." e),
              { w with file := some "" }, s,
              [Eff.getPath, Eff.netGet, Eff.createFile, Eff.writeFile])
          | Except.ok _ =>
            (Except.ok (), { w with file := some result }, s,
              [Eff.getPath, Eff.netGet, Eff.createFile, Eff.writeFile])
    else
      (Except.error (Err.msg "Tried to download schema.min.json but it already existed."), w, s,
        [Eff.getPath])

/-- `Schema::get` (schema.rs lines 70-72): `self.val.clone()`.  It takes
`&self` and performs no I/O, which the embedding reflects by taking no
`World` and returning only the cached option. -/
def Schema.get {V : Type} (s : Schema V) : Option V :=
  s.val

/-- `Schema::load_or_download` (schema.rs lines 76-84): try `load`; on any
failure try `download` (wrapping its error) then `load` again (wrapping
its error). -/
def Schema.load_or_download {V E C : Type} (ext : Libs V E C) (w : World) (s : Schema V) :
    Except Err V × World × Schema V × List Eff :=
  match Schema.load ext w s with
  | (Except.ok schema, s1, t1) => (Except.ok schema, w, s1, t1)
  | (Except.error _, s1, t1) =>
    match Schema.download w s1 with
    | (Except.error e, w1, s2, t2) =>
      (Except.error (Err.ctx "Could not download schema." e), w1, s2, t1 ++ t2)
    | (Except.ok _, w1, s2, t2) =>
      match Schema.load ext w1 s2 with
      | (Except.ok schema, s3, t3) => (Except.ok schema, w1, s3, t1 ++ t2 ++ t3)
      | (Except.error e, s3, t3) =>
        (Except.error (Err.ctx "Could not load schema from filesystem." e), w1, s3,
          t1 ++ t2 ++ t3)

/-- `Schema::validate` (schema.rs lines 90-104): obtain the schema via
`load_or_download` (propagating its error), compile it in a fresh scope
(`unwrap` panicking if compilation fails), run validation, and return
`Some(errors)` when the result is not valid, `None` otherwise. -/
def Schema.validate {V E C : Type} (ext : Libs V E C) (w : World) (s : Schema V) (d : V) :
    Outcome (Option (List E)) × World × Schema V × List Eff :=
  match Schema.load_or_download ext w s with
  | (Except.error e, w1, s1, t1) => (Outcome.err e, w1, s1, t1)
  | (Except.ok schema_json, w1, s1, t1) =>
    match ext.compile schema_json with
    | none => (Outcome.panic, w1, s1, t1)
    | some schema =>
      let validateErrors := ext.check schema d
      if !validateErrors.isEmpty then (Outcome.ok (some validateErrors), w1, s1, t1)
      else (Outcome.ok none, w1, s1, t1)

/-- `Schema::validate_file` (schema.rs lines 108-115): open and read the
given file (its content passed here as `fileContent`, `none` = cannot be
opened), parse it, and delegate to `validate`. -/
def Schema.validate_file {V E C : Type} (ext : Libs V E C) (w : World) (s : Schema V)
    (fileContent : Option String) :
    Outcome (Option (List E)) × World × Schema V × List Eff :=
  match fileContent with
  | none =>
    (Outcome.err (Err.ctx "Could not open file to verify." (Err.lib "open")), w, s,
      [Eff.openRead])
  | some buffer =>
    match ext.parse buffer with
    | none =>
      (Outcome.err (Err.ctx "Could not open file to parse." (Err.lib "parse")), w, s,
        [Eff.openRead])
    | some to_validate =>
      match Schema.validate ext w s to_validate with
      | (r, w1, s1, t) => (r, w1, s1, Eff.openRead :: t)

/-- A call against a `Schema` instance, for stating properties of whole
call sequences. -/
inductive Op (V : Type) : Type where
  | loadOp : Op V
  | downloadOp : Op V
  | getOp : Op V
  | lodOp : Op V
  | validateOp : V → Op V
  | validateFileOp : Option String → Op V

/-- Run one call, keeping the environment and instance it leaves behind. -/
def runOp {V E C : Type} (ext : Libs V E C) (op : Op V) (w : World) (s : Schema V) :
    World × Schema V :=
  match op with
  | .loadOp => (w, (Schema.load ext w s).2.1)
  | .downloadOp =>
    ((Schema.download w s).2.1, (Schema.download w s).2.2.1)
  | .getOp => (w, s)
  | .lodOp =>
    ((Schema.load_or_download ext w s).2.1, (Schema.load_or_download ext w s).2.2.1)
  | .validateOp d =>
    ((Schema.validate ext w s d).2.1, (Schema.validate ext w s d).2.2.1)
  | .validateFileOp fc =>
    ((Schema.validate_file ext w s fc).2.1, (Schema.validate_file ext w s fc).2.2.1)

/-- Run a sequence of calls. -/
def runOps {V E C : Type} (ext : Libs V E C) : List (Op V) → World → Schema V → World × Schema V
  | [], w, s => (w, s)
  | op :: ops, w, s =>
    runOps ext ops (runOp ext op w s).1 (runOp ext op w s).2

/- Concrete instantiations used by witnesses and counterexamples. -/

/-- External libraries where everything succeeds and every document is
valid. -/
def extU : Libs Unit Unit Unit :=
  { parse := fun _ => some (), compile := fun _ => some (), check := fun _ _ => [] }

/-- External libraries where only the text "good" parses. -/
def extSel : Libs Unit Unit Unit :=
  { parse := fun t => if t = "good" then some () else none,
    compile := fun _ => some (), check := fun _ _ => [] }

/-- External libraries where parsing succeeds but schema compilation
fails (a structured document that is not a compilable schema). -/
def extNC : Libs Unit Unit Unit :=
  { parse := fun _ => some (), compile := fun _ => none, check := fun _ _ => [] }

/-- Warm cache file, offline network. -/
def wGood : World :=
  { path := Except.ok (), file := some "good", net := Except.error (Err.lib "offline"),
    create := Except.ok (), write := Except.ok () }

/-- Cache file present but with unparseable content, network serving the
same unparseable text. -/
def wBad : World :=
  { path := Except.ok (), file := some "bad", net := Except.ok "bad",
    create := Except.ok (), write := Except.ok () }

/-- Cold cache, network returns unparseable text. -/
def wCold : World :=
  { path := Except.ok (), file := none, net := Except.ok "bad",
    create := Except.ok (), write := Except.ok () }

/- Helper lemmas -/

/-- A cached `load` is a pure cache hit. -/
theorem load_cached {V E C : Type} (ext : Libs V E C) (w : World) (s : Schema V)
    (v : V) (hv : s.val = some v) :
    Schema.load ext w s = (Except.ok v, s, []) := by
  unfold Schema.load
  rw [hv]

/-- A successful `load` leaves the returned value in the cache. -/
theorem load_ok_val {V E C : Type} (ext : Libs V E C) (w : World) (s s1 : Schema V)
    (v : V) (t : List Eff) (h : Schema.load ext w s = (Except.ok v, s1, t)) :
    s1.val = some v := by
  unfold Schema.load at h
  split at h <;> try split at h <;> try split at h <;> try split at h
  all_goals simp only [Prod.mk.injEq, Except.ok.injEq] at h
  all_goals
    first
      | exact Except.noConfusion h.1
      | (obtain ⟨rfl, rfl, rfl⟩ := h
         first
           | rfl
           | assumption)

/-- A failed `load` does not change the instance. -/
theorem load_err_frame {V E C : Type} (ext : Libs V E C) (w : World) (s s1 : Schema V)
    (e : Err) (t : List Eff) (h : Schema.load ext w s = (Except.error e, s1, t)) :
    s1 = s := by
  unfold Schema.load at h
  split at h <;> try split at h <;> try split at h <;> try split at h
  all_goals simp only [Prod.mk.injEq, Except.error.injEq] at h
  all_goals
    first
      | exact Except.noConfusion h.1
      | (obtain ⟨rfl, rfl, rfl⟩ := h
         rfl)

/-- `load` never touches the network. -/
theorem load_no_net {V E C : Type} (ext : Libs V E C) (w : World) (s : Schema V) :
    Eff.netGet ∉ (Schema.load ext w s).2.2 := by
  unfold Schema.load
  split <;> try split <;> try split <;> try split
  all_goals simp

/-- `download` never touches the in-memory instance. -/
theorem download_schema_frame {V : Type} (w : World) (s : Schema V) :
    (Schema.download w s).2.2.1 = s := by
  unfold Schema.download
  split <;> try split <;> try split <;> try split <;> try split
  all_goals rfl

/-- With a populated cache, `load_or_download` is a pure cache hit. -/
theorem lod_cached {V E C : Type} (ext : Libs V E C) (w : World) (s : Schema V)
    (v : V) (hv : s.val = some v) :
    Schema.load_or_download ext w s = (Except.ok v, w, s, []) := by
  unfold Schema.load_or_download
  rw [load_cached ext w s v hv]

/-- When the first `load` succeeds, `load_or_download` returns its result
and stops. -/
theorem lod_of_load_ok {V E C : Type} (ext : Libs V E C) (w : World) (s s1 : Schema V)
    (v : V) (t1 : List Eff) (hl : Schema.load ext w s = (Except.ok v, s1, t1)) :
    Schema.load_or_download ext w s = (Except.ok v, w, s1, t1) := by
  unfold Schema.load_or_download
  rw [hl]

/-- When `load` fails and `download` fails, `load_or_download` wraps the
download error. -/
theorem lod_of_download_err {V E C : Type} (ext : Libs V E C) (w w1 : World)
    (s s1 s2 : Schema V) (e ed : Err) (t1 t2 : List Eff)
    (hl : Schema.load ext w s = (Except.error e, s1, t1))
    (hd : Schema.download w s1 = (Except.error ed, w1, s2, t2)) :
    Schema.load_or_download ext w s =
      (Except.error (Err.ctx "Could not download schema." ed), w1, s2, t1 ++ t2) := by
  unfold Schema.load_or_download
  simp only [hl, hd]

/-- When `load` fails, `download` succeeds and the second `load` succeeds,
`load_or_download` returns the second load's result. -/
theorem lod_of_download_ok_load_ok {V E C : Type} (ext : Libs V E C) (w w1 : World)
    (s s1 s2 s3 : Schema V) (e : Err) (u : Unit) (v : V) (t1 t2 t3 : List Eff)
    (hl : Schema.load ext w s = (Except.error e, s1, t1))
    (hd : Schema.download w s1 = (Except.ok u, w1, s2, t2))
    (hl2 : Schema.load ext w1 s2 = (Except.ok v, s3, t3)) :
    Schema.load_or_download ext w s = (Except.ok v, w1, s3, t1 ++ t2 ++ t3) := by
  unfold Schema.load_or_download
  simp only [hl, hd, hl2]

/-- When `load` fails, `download` succeeds and the second `load` fails,
`load_or_download` wraps the second load's error. -/
theorem lod_of_download_ok_load_err {V E C : Type} (ext : Libs V E C) (w w1 : World)
    (s s1 s2 s3 : Schema V) (e : Err) (u : Unit) (e2 : Err) (t1 t2 t3 : List Eff)
    (hl : Schema.load ext w s = (Except.error e, s1, t1))
    (hd : Schema.download w s1 = (Except.ok u, w1, s2, t2))
    (hl2 : Schema.load ext w1 s2 = (Except.error e2, s3, t3)) :
    Schema.load_or_download ext w s =
      (Except.error (Err.ctx "Could not load schema from filesystem." e2), w1, s3,
        t1 ++ t2 ++ t3) := by
  unfold Schema.load_or_download
  simp only [hl, hd, hl2]

/-- A successful `load_or_download` leaves the returned value in the
cache. -/
theorem lod_ok_val {V E C : Type} (ext : Libs V E C) (w w1 : World) (s s1 : Schema V)
    (v : V) (t : List Eff)
    (h : Schema.load_or_download ext w s = (Except.ok v, w1, s1, t)) :
    s1.val = some v := by
  unfold Schema.load_or_download at h
  rcases hl : Schema.load ext w s with ⟨r, sa, ta⟩
  cases r with
  | ok schema =>
    simp only [hl, Prod.mk.injEq, Except.ok.injEq] at h
    obtain ⟨rfl, rfl, rfl, rfl⟩ := h
    exact load_ok_val ext w s sa schema ta hl
  | error e =>
    rcases hd : Schema.download w sa with ⟨rd, wb, sb, tb⟩
    cases rd with
    | error ed =>
      simp only [hl, hd, Prod.mk.injEq] at h
      exact Except.noConfusion h.1
    | ok u =>
      rcases hl2 : Schema.load ext wb sb with ⟨r2, sc, tc⟩
      cases r2 with
      | ok schema2 =>
        simp only [hl, hd, hl2, Prod.mk.injEq, Except.ok.injEq] at h
        obtain ⟨rfl, rfl, rfl, rfl⟩ := h
        exact load_ok_val ext wb sb sc schema2 tc hl2
      | error e2 =>
        simp only [hl, hd, hl2, Prod.mk.injEq] at h
        exact Except.noConfusion h.1

/-- `validate` propagates a `load_or_download` failure unchanged. -/
theorem validate_of_lod_err {V E C : Type} (ext : Libs V E C) (w w1 : World)
    (s s1 : Schema V) (d : V) (e : Err) (t1 : List Eff)
    (hld : Schema.load_or_download ext w s = (Except.error e, w1, s1, t1)) :
    Schema.validate ext w s d = (Outcome.err e, w1, s1, t1) := by
  unfold Schema.validate
  rw [hld]

/-- `validate` after a successful `load_or_download` whose document does
not compile panics. -/
theorem validate_of_compile_none {V E C : Type} (ext : Libs V E C) (w w1 : World)
    (s s1 : Schema V) (d v : V) (t1 : List Eff)
    (hld : Schema.load_or_download ext w s = (Except.ok v, w1, s1, t1))
    (hc : ext.compile v = none) :
    Schema.validate ext w s d = (Outcome.panic, w1, s1, t1) := by
  unfold Schema.validate
  simp only [hld, hc]

/-- `validate` after a successful `load_or_download` whose document
compiles returns exactly the checker's verdict. -/
theorem validate_of_compile_some {V E C : Type} (ext : Libs V E C) (w w1 : World)
    (s s1 : Schema V) (d v : V) (c : C) (t1 : List Eff)
    (hld : Schema.load_or_download ext w s = (Except.ok v, w1, s1, t1))
    (hc : ext.compile v = some c) :
    Schema.validate ext w s d =
      (if (ext.check c d).isEmpty then Outcome.ok none
        else Outcome.ok (some (ext.check c d)), w1, s1, t1) := by
  unfold Schema.validate
  simp only [hld, hc]
  cases hch : ext.check c d with
  | nil => simp
  | cons x xs => simp

/-- `validate` only returns `err` by propagating a `load_or_download`
failure. -/
theorem validate_err_inv {V E C : Type} (ext : Libs V E C) (w : World) (s : Schema V)
    (d : V) (e : Err) (h : (Schema.validate ext w s d).1 = Outcome.err e) :
    (Schema.load_or_download ext w s).1 = Except.error e := by
  rcases hld : Schema.load_or_download ext w s with ⟨rl, wa, sa, ta⟩
  cases rl with
  | error e0 =>
    rw [validate_of_lod_err ext w wa s sa d e0 ta hld] at h
    simp only [Outcome.err.injEq] at h
    rw [h]
  | ok v =>
    cases hc : ext.compile v with
    | none =>
      rw [validate_of_compile_none ext w wa s sa d v ta hld hc] at h
      simp at h
    | some c =>
      rw [validate_of_compile_some ext w wa s sa d v c ta hld hc] at h
      cases hch : ext.check c d <;> simp [hch] at h

/-- With a populated cache, `validate` keeps both the environment and the
instance unchanged. -/
theorem validate_frame_cached {V E C : Type} (ext : Libs V E C) (w : World) (s : Schema V)
    (d v : V) (hv : s.val = some v) :
    (Schema.validate ext w s d).2.1 = w ∧ (Schema.validate ext w s d).2.2.1 = s := by
  have hld := lod_cached ext w s v hv
  cases hc : ext.compile v with
  | none => rw [validate_of_compile_none ext w w s s d v [] hld hc]; exact ⟨rfl, rfl⟩
  | some c => rw [validate_of_compile_some ext w w s s d v c [] hld hc]; exact ⟨rfl, rfl⟩

/-- With a populated cache, `validate_file` keeps both the environment and
the instance unchanged. -/
theorem validate_file_frame_cached {V E C : Type} (ext : Libs V E C) (w : World)
    (s : Schema V) (fc : Option String) (v : V) (hv : s.val = some v) :
    (Schema.validate_file ext w s fc).2.1 = w ∧
      (Schema.validate_file ext w s fc).2.2.1 = s := by
  unfold Schema.validate_file
  cases fc with
  | none => exact ⟨rfl, rfl⟩
  | some buffer =>
    cases hpr : ext.parse buffer with
    | none => simp [hpr]
    | some tv =>
      simp only [hpr]
      rcases hvd : Schema.validate ext w s tv with ⟨r, w1, s1, t⟩
      have hfr := validate_frame_cached ext w s tv v hv
      rw [hvd] at hfr
      simp only [hvd]
      exact hfr

/-- With a populated cache, no call changes the instance. -/
theorem runOp_cached {V E C : Type} (ext : Libs V E C) (op : Op V) (w : World)
    (s : Schema V) (v : V) (hv : s.val = some v) : (runOp ext op w s).2 = s := by
  cases op with
  | loadOp => simp [runOp, load_cached ext w s v hv]
  | downloadOp => simp [runOp, download_schema_frame]
  | getOp => rfl
  | lodOp => simp [runOp, lod_cached ext w s v hv]
  | validateOp d => exact (validate_frame_cached ext w s d v hv).2
  | validateFileOp fc => exact (validate_file_frame_cached ext w s fc v hv).2

/-- With a populated cache, no sequence of calls changes the instance. -/
theorem runOps_cached {V E C : Type} (ext : Libs V E C) (ops : List (Op V)) :
    ∀ (w : World) (s : Schema V) (v : V), s.val = some v → (runOps ext ops w s).2 = s := by
  induction ops with
  | nil => intro w s v _; rfl
  | cons op ops ih =>
    intro w s v hv
    unfold runOps
    rw [runOp_cached ext op w s v hv]
    exact ih (runOp ext op w s).1 s v hv

/-- `download` changes the stored file only when none existed. -/
theorem download_writes_only_if_absent {V : Type} (w : World) (s : Schema V)
    (h : ((Schema.download w s).2.1).file ≠ w.file) : w.file = none := by
  unfold Schema.download at h
  split at h <;> try split at h <;> try split at h <;> try split at h <;> try split at h
  all_goals simp_all [Option.isNone_iff_eq_none]

/-- Claim C3: once a `load` has succeeded (populating the in-memory
cache), a subsequent `load` on the resulting instance returns the very
same document with an empty effect trace — no filesystem access — and
does so in every environment `w2`, in particular one where the cache file
has been removed. -/
theorem load_cache_hit_after_success {V E C : Type} (ext : Libs V E C) (w w2 : World)
    (s s1 : Schema V) (v : V) (t1 : List Eff)
    (h : Schema.load ext w s = (Except.ok v, s1, t1)) :
    Schema.load ext w2 s1 = (Except.ok v, s1, []) :=
  load_cached ext w2 s1 v (load_ok_val ext w s s1 v t1 h)

/-- Witness for C3: a load on a warm-file world succeeds, and the reload
succeeds with no effects in the world where the file is gone. -/
theorem load_cache_hit_after_success_witness :
    Schema.load extU wCold ({ val := some () } : Schema Unit) =
      (Except.ok (), { val := some () }, []) :=
  load_cache_hit_after_success extU wGood wCold Schema.new { val := some () } ()
    [Eff.getPath, Eff.openRead] rfl

/-- Claim C4: when the cache destination resolves and a file already
exists there, `download` fails with the `AlreadyExists` message, leaves
the environment (in particular the file content) unchanged, and its trace
holds no network access; moreover, in any environment, `download` changes
the stored file only if none existed. -/
theorem download_already_exists_guard {V : Type} (w : World) (s : Schema V)
    (content : String) (hp : w.path = Except.ok ()) (hf : w.file = some content) :
    Schema.download w s =
      (Except.error (Err.msg "Tried to download schema.min.json but it already existed."), w, s,
        [Eff.getPath]) ∧
    Eff.netGet ∉ (Schema.download w s).2.2.2 ∧
    (Schema.download w s).2.1.file = some content ∧
    (∀ (w2 : World), ((Schema.download w2 s).2.1).file ≠ w2.file → w2.file = none) := by
  have h1 : Schema.download w s =
      (Except.error (Err.msg "Tried to download schema.min.json but it already existed."), w, s,
        [Eff.getPath]) := by
    unfold Schema.download
    rw [hp]
    simp [hf]
  refine ⟨h1, ?_, ?_, fun w2 h => download_writes_only_if_absent w2 s h⟩
  · rw [h1]; simp
  · rw [h1]; exact hf

/-- Witness for C4 at the concrete warm-file world. -/
theorem download_already_exists_guard_witness :
    Schema.download wGood (Schema.new : Schema Unit) =
      (Except.error (Err.msg "Tried to download schema.min.json but it already existed."), wGood,
        Schema.new, [Eff.getPath]) ∧
    Eff.netGet ∉ (Schema.download wGood (Schema.new : Schema Unit)).2.2.2 ∧
    (Schema.download wGood (Schema.new : Schema Unit)).2.1.file = some "good" ∧
    (∀ (w2 : World),
      ((Schema.download w2 (Schema.new : Schema Unit)).2.1).file ≠ w2.file → w2.file = none) :=
  download_already_exists_guard wGood Schema.new "good" rfl rfl

/-- Claim C5: there is an input on which `validate` neither returns `Ok`
nor `Err` but panics: the cache file text parses to a document
(`load_or_download` succeeds), yet the document does not compile as a
schema, so the `unwrap` aborts. -/
theorem validate_panic_on_uncompilable_schema :
    (Schema.load_or_download extNC wBad (Schema.new : Schema Unit)).1 = Except.ok () ∧
    Schema.validate extNC wBad (Schema.new : Schema Unit) () =
      (Outcome.panic, wBad, { val := some () }, [Eff.getPath, Eff.openRead]) :=
  ⟨rfl, rfl⟩

/-- Claim C10: `get` returns the in-memory cached document when present
and `none` otherwise.  Its embedding takes no environment and returns no
state, mirroring `&self` with no I/O in the source: the call cannot touch
the filesystem or network and cannot change the instance. -/
theorem get_pure_read {V : Type} (s : Schema V) :
    Schema.get s = s.val ∧
    (∀ v : V, s.val = some v → Schema.get s = some v) ∧
    (s.val = none → Schema.get s = none) :=
  ⟨rfl, fun _ hv => hv, fun h => h⟩

/-- Witness for C10 on a populated instance. -/
theorem get_pure_read_witness :
    Schema.get ({ val := some () } : Schema Unit) = some () :=
  (get_pure_read { val := some () }).2.1 () rfl

/-- Claim C2: `load_or_download` first attempts `load`; when that
succeeds it returns its result at once, with the environment untouched
and no network access in the trace; exactly when it fails, `download` is
attempted and, on its failure, its error is propagated wrapped; when
`download` succeeds, a second `load` runs and, on its failure, that
load's error is propagated (wrapped). -/
theorem ensure_control_flow {V E C : Type} (ext : Libs V E C) (w : World) (s : Schema V) :
    (∀ (v : V) (s1 : Schema V) (t1 : List Eff),
      Schema.load ext w s = (Except.ok v, s1, t1) →
      Schema.load_or_download ext w s = (Except.ok v, w, s1, t1) ∧
        Eff.netGet ∉ (Schema.load_or_download ext w s).2.2.2) ∧
    (∀ (e : Err) (s1 : Schema V) (t1 : List Eff),
      Schema.load ext w s = (Except.error e, s1, t1) →
      (∀ (ed : Err) (w1 : World) (s2 : Schema V) (t2 : List Eff),
        Schema.download w s1 = (Except.error ed, w1, s2, t2) →
        Schema.load_or_download ext w s =
          (Except.error (Err.ctx "Could not download schema." ed), w1, s2, t1 ++ t2)) ∧
      (∀ (u : Unit) (w1 : World) (s2 : Schema V) (t2 : List Eff),
        Schema.download w s1 = (Except.ok u, w1, s2, t2) →
        (∀ (v : V) (s3 : Schema V) (t3 : List Eff),
          Schema.load ext w1 s2 = (Except.ok v, s3, t3) →
          Schema.load_or_download ext w s = (Except.ok v, w1, s3, t1 ++ t2 ++ t3)) ∧
        (∀ (e2 : Err) (s3 : Schema V) (t3 : List Eff),
          Schema.load ext w1 s2 = (Except.error e2, s3, t3) →
          Schema.load_or_download ext w s =
            (Except.error (Err.ctx "Could not load schema from filesystem." e2), w1, s3,
              t1 ++ t2 ++ t3)))) := by
  constructor
  · intro v s1 t1 hl
    refine ⟨lod_of_load_ok ext w s s1 v t1 hl, ?_⟩
    rw [lod_of_load_ok ext w s s1 v t1 hl]
    have hn := load_no_net ext w s
    rw [hl] at hn
    simpa using hn
  · intro e s1 t1 hl
    refine ⟨?_, ?_⟩
    · intro ed w1 s2 t2 hd
      exact lod_of_download_err ext w w1 s s1 s2 e ed t1 t2 hl hd
    · intro u w1 s2 t2 hd
      exact ⟨fun v s3 t3 hl2 =>
          lod_of_download_ok_load_ok ext w w1 s s1 s2 s3 e u v t1 t2 t3 hl hd hl2,
        fun e2 s3 t3 hl2 =>
          lod_of_download_ok_load_err ext w w1 s s1 s2 s3 e u e2 t1 t2 t3 hl hd hl2⟩

/-- Witness for C2: with a warm cache file the composite returns the
loaded document, the environment is unchanged and the trace holds no
network access. -/
theorem ensure_control_flow_witness :
    Schema.load_or_download extU wGood (Schema.new : Schema Unit) =
      (Except.ok (), wGood, { val := some () }, [Eff.getPath, Eff.openRead]) ∧
    Eff.netGet ∉ (Schema.load_or_download extU wGood (Schema.new : Schema Unit)).2.2.2 :=
  (ensure_control_flow extU wGood Schema.new).1 () { val := some () }
    [Eff.getPath, Eff.openRead] rfl

/-- Counterexample to claim C6 as stated: with a cache file whose content
does not parse, the first `load` fails with the parse cause, the fallback
fails with `AlreadyExists`, and the error `load_or_download` returns
carries only the fallback cause — the original parse cause appears
nowhere in its message chain. -/
theorem ensure_error_drops_original_cause_cex :
    (Schema.load extSel wBad (Schema.new : Schema Unit)).1 =
      Except.error (Err.ctx "Failed to parse schema.min.json." (Err.lib "parse")) ∧
    (Schema.load_or_download extSel wBad (Schema.new : Schema Unit)).1 =
      Except.error (Err.ctx "Could not download schema."
        (Err.msg "Tried to download schema.min.json but it already existed.")) ∧
    "Failed to parse schema.min.json." ∉
      (Err.ctx "Could not download schema."
        (Err.msg "Tried to download schema.min.json but it already existed.")).msgs :=
  ⟨rfl, rfl, by decide⟩

/-- Claim C6 (amended): when the initial `load` fails and the fallback
also fails, the returned error is built from the fallback failure's cause
alone, wrapped with context (so every fallback message stays visible);
the initial load failure's cause is discarded and does not appear. -/
theorem ensure_error_carries_fallback_cause_only {V E C : Type} (ext : Libs V E C)
    (w : World) (s : Schema V) (e : Err) (s1 : Schema V) (t1 : List Eff)
    (hl : Schema.load ext w s = (Except.error e, s1, t1)) :
    (∀ (ed : Err) (w1 : World) (s2 : Schema V) (t2 : List Eff),
      Schema.download w s1 = (Except.error ed, w1, s2, t2) →
      Schema.load_or_download ext w s =
        (Except.error (Err.ctx "Could not download schema." ed), w1, s2, t1 ++ t2) ∧
      ed.msgs ⊆ (Err.ctx "Could not download schema." ed).msgs) ∧
    (∀ (u : Unit) (w1 : World) (s2 : Schema V) (t2 : List Eff) (e2 : Err) (s3 : Schema V)
        (t3 : List Eff),
      Schema.download w s1 = (Except.ok u, w1, s2, t2) →
      Schema.load ext w1 s2 = (Except.error e2, s3, t3) →
      Schema.load_or_download ext w s =
        (Except.error (Err.ctx "Could not load schema from filesystem." e2), w1, s3,
          t1 ++ t2 ++ t3) ∧
      e2.msgs ⊆ (Err.ctx "Could not load schema from filesystem." e2).msgs) := by
  constructor
  · intro ed w1 s2 t2 hd
    exact ⟨lod_of_download_err ext w w1 s s1 s2 e ed t1 t2 hl hd,
      fun x hx => List.mem_cons_of_mem _ hx⟩
  · intro u w1 s2 t2 e2 s3 t3 hd hl2
    exact ⟨lod_of_download_ok_load_err ext w w1 s s1 s2 s3 e u e2 t1 t2 t3 hl hd hl2,
      fun x hx => List.mem_cons_of_mem _ hx⟩

/-- Witness for amended C6 at the corrupt-cache-file world. -/
theorem ensure_error_carries_fallback_cause_only_witness :
    Schema.load_or_download extSel wBad (Schema.new : Schema Unit) =
      (Except.error (Err.ctx "Could not download schema."
        (Err.msg "Tried to download schema.min.json but it already existed.")), wBad,
        Schema.new, [Eff.getPath, Eff.openRead] ++ [Eff.getPath]) ∧
    (Err.msg "Tried to download schema.min.json but it already existed.").msgs ⊆
      (Err.ctx "Could not download schema."
        (Err.msg "Tried to download schema.min.json but it already existed.")).msgs :=
  (ensure_error_carries_fallback_cause_only extSel wBad Schema.new
      (Err.ctx "Failed to parse schema.min.json." (Err.lib "parse")) Schema.new
      [Eff.getPath, Eff.openRead] rfl).1
    (Err.msg "Tried to download schema.min.json but it already existed.") wBad Schema.new
    [Eff.getPath] rfl

/-- Claim C8: with an empty in-memory cache and a cache file whose
content does not parse, `load` fails with the parse error, `download`
fails with `AlreadyExists`, and `load_or_download` fails overall (the
schema is unavailable), leaving environment and instance unchanged — in
particular the file is not overwritten. -/
theorem corrupt_cache_ensure_unavailable {V E C : Type} (ext : Libs V E C) (w : World)
    (s : Schema V) (content : String) (hval : s.val = none) (hp : w.path = Except.ok ())
    (hf : w.file = some content) (hparse : ext.parse content = none) :
    Schema.load ext w s =
      (Except.error (Err.ctx "Failed to parse schema.min.json." (Err.lib "parse")), s,
        [Eff.getPath, Eff.openRead]) ∧
    Schema.download w s =
      (Except.error (Err.msg "Tried to download schema.min.json but it already existed."), w, s,
        [Eff.getPath]) ∧
    Schema.load_or_download ext w s =
      (Except.error (Err.ctx "Could not download schema."
        (Err.msg "Tried to download schema.min.json but it already existed.")), w, s,
        [Eff.getPath, Eff.openRead, Eff.getPath]) := by
  have h1 : Schema.load ext w s =
      (Except.error (Err.ctx "Failed to parse schema.min.json." (Err.lib "parse")), s,
        [Eff.getPath, Eff.openRead]) := by
    unfold Schema.load
    rw [hval, hp]
    simp [hf, hparse]
  have h2 : Schema.download w s =
      (Except.error (Err.msg "Tried to download schema.min.json but it already existed."), w, s,
        [Eff.getPath]) := by
    unfold Schema.download
    rw [hp]
    simp [hf]
  refine ⟨h1, h2, ?_⟩
  rw [lod_of_download_err ext w w s s s
      (Err.ctx "Failed to parse schema.min.json." (Err.lib "parse"))
      (Err.msg "Tried to download schema.min.json but it already existed.")
      [Eff.getPath, Eff.openRead] [Eff.getPath] h1 h2]
  rfl

/-- Witness for C8 at the concrete corrupt-cache world. -/
theorem corrupt_cache_ensure_unavailable_witness :
    Schema.load extSel wBad (Schema.new : Schema Unit) =
      (Except.error (Err.ctx "Failed to parse schema.min.json." (Err.lib "parse")), Schema.new,
        [Eff.getPath, Eff.openRead]) ∧
    Schema.download wBad (Schema.new : Schema Unit) =
      (Except.error (Err.msg "Tried to download schema.min.json but it already existed."), wBad,
        Schema.new, [Eff.getPath]) ∧
    Schema.load_or_download extSel wBad (Schema.new : Schema Unit) =
      (Except.error (Err.ctx "Could not download schema."
        (Err.msg "Tried to download schema.min.json but it already existed.")), wBad,
        Schema.new, [Eff.getPath, Eff.openRead, Eff.getPath]) :=
  corrupt_cache_ensure_unavailable extSel wBad Schema.new "bad" rfl rfl rfl rfl

/-- Claim C7: once the in-memory cached field is `Some v`, every sequence
of calls (`load`, `download`, `get`, `load_or_download`, `validate`,
`validate_file`) leaves the instance — in particular its cached field —
exactly as it was; and `download` never modifies the in-memory field at
all, populated or not. -/
theorem cached_value_never_invalidated {V E C : Type} (ext : Libs V E C)
    (ops : List (Op V)) (w : World) (s : Schema V) (v : V) (hv : s.val = some v) :
    ((runOps ext ops w s).2).val = some v ∧
    (∀ (w2 : World) (s2 : Schema V), (Schema.download w2 s2).2.2.1 = s2) :=
  ⟨by rw [runOps_cached ext ops w s v hv]; exact hv,
    fun w2 s2 => download_schema_frame w2 s2⟩

/-- Witness for C7 on a populated instance across a concrete call
sequence exercising every operation. -/
theorem cached_value_never_invalidated_witness :
    ((runOps extU
        [Op.downloadOp, Op.validateOp (), Op.loadOp, Op.getOp, Op.lodOp,
          Op.validateFileOp (some "good")]
        wCold { val := some () }).2).val = some () ∧
    (∀ (w2 : World) (s2 : Schema Unit), (Schema.download w2 s2).2.2.1 = s2) :=
  cached_value_never_invalidated extU
    [Op.downloadOp, Op.validateOp (), Op.loadOp, Op.getOp, Op.lodOp,
      Op.validateFileOp (some "good")]
    wCold { val := some () } () rfl

/-- Counterexample to claim C1 as stated: an environment in which
`load_or_download` succeeds in obtaining the schema document, yet
`validate` does not return a successful result — it panics on the
`unwrap`, because the obtained document does not compile. -/
theorem ensure_ok_validate_not_ok_cex :
    (Schema.load_or_download extNC wGood (Schema.new : Schema Unit)).1 = Except.ok () ∧
    (Schema.validate extNC wGood (Schema.new : Schema Unit) ()).1 = Outcome.panic :=
  ⟨rfl, rfl⟩

/-- Claim C1 (amended): if `load_or_download` succeeds in obtaining the
schema document and that document compiles, `validate` returns a
successful result: `none` when the document conforms (no check errors)
and `some` of the non-empty error sequence otherwise; any `some` result
is non-empty; and `validate` returns an error exactly by propagating a
`load_or_download` failure.  When the obtained document does not compile,
`validate` panics instead of returning. -/
theorem validate_ok_when_ensure_ok_and_compiles {V E C : Type} (ext : Libs V E C)
    (w w1 : World) (s s1 : Schema V) (d v : V) (c : C) (t1 : List Eff)
    (hld : Schema.load_or_download ext w s = (Except.ok v, w1, s1, t1))
    (hc : ext.compile v = some c) :
    (ext.check c d = [] → Schema.validate ext w s d = (Outcome.ok none, w1, s1, t1)) ∧
    (ext.check c d ≠ [] →
      Schema.validate ext w s d = (Outcome.ok (some (ext.check c d)), w1, s1, t1)) ∧
    (∀ errs : List E, (Schema.validate ext w s d).1 = Outcome.ok (some errs) → errs ≠ []) ∧
    (∀ (w2 : World) (s2 : Schema V) (e : Err),
      (Schema.validate ext w2 s2 d).1 = Outcome.err e →
      (Schema.load_or_download ext w2 s2).1 = Except.error e) := by
  have hmain := validate_of_compile_some ext w w1 s s1 d v c t1 hld hc
  refine ⟨?_, ?_, ?_, fun w2 s2 e h => validate_err_inv ext w2 s2 d e h⟩
  · intro hch
    rw [hmain, hch]
    simp
  · intro hch
    rw [hmain, if_neg ?_]
    simpa using hch
  · intro errs h
    rw [hmain] at h
    cases hch : ext.check c d with
    | nil => rw [hch] at h; simp at h
    | cons x xs =>
      rw [hch] at h
      simp at h
      rw [← h]
      simp

/-- Witness for amended C1: a compiling schema and a conforming document
give the empty result. -/
theorem validate_ok_when_ensure_ok_and_compiles_witness :
    Schema.validate extU wGood (Schema.new : Schema Unit) () =
      (Outcome.ok none, wGood, { val := some () }, [Eff.getPath, Eff.openRead]) :=
  (validate_ok_when_ensure_ok_and_compiles extU wGood wGood Schema.new { val := some () }
      () () () [Eff.getPath, Eff.openRead] rfl rfl).1 rfl

/-- Counterexample to claim C9 as stated: on a cold cache with a network
that serves unparseable text, the first `validate` call fails after its
fallback has written the fetched text to the cache file; the second call,
run on the state the first one left, fails with a different error, so the
two results are not identical. -/
theorem validate_not_idempotent_cex :
    (Schema.validate extSel wCold (Schema.new : Schema Unit) ()).1 =
      Outcome.err (Err.ctx "Could not load schema from filesystem."
        (Err.ctx "Failed to parse schema.min.json." (Err.lib "parse"))) ∧
    (Schema.validate extSel
        (Schema.validate extSel wCold (Schema.new : Schema Unit) ()).2.1
        (Schema.validate extSel wCold (Schema.new : Schema Unit) ()).2.2.1 ()).1 =
      Outcome.err (Err.ctx "Could not download schema."
        (Err.msg "Tried to download schema.min.json but it already existed.")) ∧
    (Schema.validate extSel wCold (Schema.new : Schema Unit) ()).1 ≠
      (Schema.validate extSel
        (Schema.validate extSel wCold (Schema.new : Schema Unit) ()).2.1
        (Schema.validate extSel wCold (Schema.new : Schema Unit) ()).2.2.1 ()).1 :=
  ⟨rfl, rfl, by decide⟩

/-- Claim C9 (amended): whenever the first `validate` call returns
successfully (a valid/invalid verdict, possibly with error records), a
second call with the same document on the state it left returns the
identical result; idempotence holds for successful calls, but not for
failing ones, whose fallback may have changed the cache file. -/
theorem validate_idempotent_on_success {V E C : Type} (ext : Libs V E C) (w w1 : World)
    (s s1 : Schema V) (d : V) (r : Option (List E)) (t1 : List Eff)
    (h : Schema.validate ext w s d = (Outcome.ok r, w1, s1, t1)) :
    Schema.validate ext w1 s1 d = (Outcome.ok r, w1, s1, []) := by
  rcases hld : Schema.load_or_download ext w s with ⟨rl, wa, sa, ta⟩
  cases rl with
  | error e0 =>
    rw [validate_of_lod_err ext w wa s sa d e0 ta hld] at h
    exact absurd (congrArg Prod.fst h) (by simp)
  | ok v =>
    cases hc : ext.compile v with
    | none =>
      rw [validate_of_compile_none ext w wa s sa d v ta hld hc] at h
      exact absurd (congrArg Prod.fst h) (by simp)
    | some c =>
      have hval : sa.val = some v := lod_ok_val ext w wa s sa v ta hld
      rw [validate_of_compile_some ext w wa s sa d v c ta hld hc] at h
      simp only [Prod.mk.injEq] at h
      obtain ⟨hX, rfl, rfl, rfl⟩ := h
      rw [validate_of_compile_some ext wa wa sa sa d v c []
        (lod_cached ext wa sa v hval) hc]
      rw [hX]

/-- Witness for amended C9: a successful first call replays identically
(with an empty trace) on the state it left. -/
theorem validate_idempotent_on_success_witness :
    Schema.validate extU wGood ({ val := some () } : Schema Unit) () =
      (Outcome.ok none, wGood, { val := some () }, []) :=
  validate_idempotent_on_success extU wGood wGood Schema.new { val := some () } () none
    [Eff.getPath, Eff.openRead] rfl
